import Mathlib

/-!
Shallow embedding of `src/llms/llm.py` (AuraFlow): an LLM-client factory and
cache layered over YAML configuration, environment-variable overrides and
LM Studio endpoint auto-detection.

Modelling conventions:
* Python `dict` values become association lists `List (String × α)` with
  Python `dict` semantics (`dictFind`, `dictInsert`, `dictErase`, ...).
* Python exceptions become `Except PyExn`; every `raise ValueError(msg)` in
  the source becomes `.error (.valueError msg)` with the source's message.
* `os.environ` is a parameter `env : List (String × String)`; `httpx.get` is
  a parameter `probe : String → Except PyExn Nat` returning a status code or
  the exception it raised; `load_yaml_config` (imported from `src.config`,
  outside this module) is a parameter holding the already-loaded YAML (or,
  for the reporter, the outcome of loading it).
* String manipulation is done on `Char` lists so every definition evaluates
  by kernel reduction.
-/

/-- Characters of `p` are a prefix of the second list (Python `str.startswith`). -/
def charsPrefix : List Char → List Char → Bool
  | [], _ => true
  | _ :: _, [] => false
  | a :: as, b :: bs => a = b && charsPrefix as bs

/-- Pattern occurs as a contiguous run in the list (Python `in` on strings). -/
def charsInfix (pat : List Char) : List Char → Bool
  | [] => charsPrefix pat []
  | c :: cs => charsPrefix pat (c :: cs) || charsInfix pat cs

/-- Python `pat in s` for strings. -/
def containsSubstr (s pat : String) : Bool := charsInfix pat.data s.data

/-- Python `s.startswith(p)`. -/
def strStartsWith (s p : String) : Bool := charsPrefix p.data s.data

/-- Python `s[n:]` (drop the first `n` characters). -/
def strDrop (s : String) (n : Nat) : String := ⟨s.data.drop n⟩

/-- Python `s.upper()` (ASCII case is all the source needs). -/
def strUpper (s : String) : String := ⟨s.data.map Char.toUpper⟩

/-- Python `s.lower()`. -/
def strLower (s : String) : String := ⟨s.data.map Char.toLower⟩

/-- Python `len(s)`. -/
def strLen (s : String) : Nat := s.data.length

/-- Values stored in the configuration dictionaries of `llm.py`.
`extraBody b` is the dict `extra_body = (enable_thinking: b)` built in the
dashscope branch; `httpClient` / `httpAsyncClient` are the `httpx.Client` /
`httpx.AsyncClient` transports built when SSL verification is disabled. -/
inductive Val : Type
  | str (s : String)
  | bool (b : Bool)
  | int (n : Int)
  | pyNone
  | extraBody (enable_thinking : Bool)
  | httpClient (verify : Bool)
  | httpAsyncClient (verify : Bool)
deriving DecidableEq, Repr

/-- Python truthiness (`if v:`) for the values above. The transport objects
and the `extra_body` dict are non-empty objects, hence truthy. -/
def Val.truthy : Val → Bool
  | .str s => s ≠ ""
  | .bool b => b
  | .int n => n ≠ 0
  | .pyNone => false
  | .extraBody _ => true
  | .httpClient _ => true
  | .httpAsyncClient _ => true

/-- Python `d.get(k)` / `d[k]`-on-present-key: first (unique) binding wins. -/
def dictFind {α : Type} : List (String × α) → String → Option α
  | [], _ => none
  | p :: d, k => if p.1 = k then some p.2 else dictFind d k

/-- Python `k in d`. -/
def dictHasKey {α : Type} : List (String × α) → String → Bool
  | [], _ => false
  | p :: d, k => if p.1 = k then true else dictHasKey d k

/-- Python `d[k] = v`: replace in place when the key is present, else append
(Python dicts keep insertion order). -/
def dictInsert {α : Type} (d : List (String × α)) (k : String) (v : α) :
    List (String × α) :=
  if dictHasKey d k then d.map (fun p => if p.1 = k then (k, v) else p)
  else d ++ [(k, v)]

/-- Key removal, as performed by Python `d.pop(k, default)`. -/
def dictErase {α : Type} : List (String × α) → String → List (String × α)
  | [], _ => []
  | p :: d, k => if p.1 = k then dictErase d k else p :: dictErase d k

/-- Python `d.setdefault(k, v)` restricted to its effect on the dict. -/
def dictSetdefault {α : Type} (d : List (String × α)) (k : String) (v : α) :
    List (String × α) :=
  if dictHasKey d k then d else d ++ [(k, v)]

/-- Python `(**a, **b)` as a dict expression: start from `a`, write every
binding of `b` over it (later keys win). -/
def pyMerge {α : Type} (a b : List (String × α)) : List (String × α) :=
  b.foldl (fun acc p => dictInsert acc p.1 p.2) a

/-- Python exceptions that appear in `llm.py`: the `ValueError`s it raises,
the `TypeError` a `(**x)` splat raises on a non-mapping, and whatever
`httpx.get` raises on connection failure. -/
inductive PyExn : Type
  | valueError (msg : String)
  | typeError (msg : String)
  | httpxError (msg : String)
deriving DecidableEq, Repr

/-- The Python class name of the exception. -/
def PyExn.kind : PyExn → String
  | .valueError _ => "ValueError"
  | .typeError _ => "TypeError"
  | .httpxError _ => "HTTPError"

/-- A value sitting under a top-level YAML key: either a mapping (what the
module expects) or anything else, carried as its Python string rendering. -/
inductive YamlVal : Type
  | dict (d : List (String × Val))
  | scalar (s : String)
deriving DecidableEq, Repr

/-- The loaded YAML configuration: top-level keys to values. -/
abbrev Yaml : Type := List (String × YamlVal)

/-- The chat-client objects `llm.py` can construct, each holding the keyword
options the source passes to the constructor. -/
inductive ChatModel : Type
  | azureChatOpenAI (opts : List (String × Val))
  | chatDashscope (opts : List (String × Val))
  | chatDeepSeek (opts : List (String × Val))
  | chatOpenAI (opts : List (String × Val))
deriving DecidableEq, Repr

/-- Lines 26–33: mapping of LLM types to their configuration keys. -/
def _get_llm_type_config_keys : List (String × String) :=
  [("reasoning", "REASONING_MODEL"), ("basic", "BASIC_MODEL"),
   ("vision", "VISION_MODEL"), ("code", "CODE_MODEL")]

/-- Modelled from the spec: `LLMType` (= `get_args(LLMType)`) is defined in
`src/config/agents.py`, which is not part of this module; the spec fixes the
role set to reasoning | basic | vision | code. -/
def llmTypeArgs : List String := ["reasoning", "basic", "vision", "code"]

/-- Lines 36–48, `_get_env_llm_conf`: collect environment variables named
`(LLM_TYPE)_MODEL__(KEY)`, strip the prefix, lower-case the remainder.
All values stay strings. -/
def _get_env_llm_conf (env : List (String × String)) (llm_type : String) :
    List (String × Val) :=
  let pfx := strUpper llm_type ++ "_MODEL__"
  env.foldl
    (fun conf p =>
      if strStartsWith p.1 pfx then
        dictInsert conf (strLower (strDrop p.1 (strLen pfx))) (.str p.2)
      else conf)
    []

/-- Lines 69–73: the hard-coded candidate hosts. -/
def defaultCandidateHosts : List String :=
  ["http://localhost:1234", "http://127.0.0.1:1234", "http://192.168.2.65:1234"]

/-- Lines 69–78: the probed candidate list, with the optional
`LMSTUDIO_LAN_HOST` entry inserted at position 0 (`if lan_host:` is Python
truthiness, so an empty string is not prepended). -/
def detectCandidates (env : List (String × String)) : List String :=
  match dictFind env "LMSTUDIO_LAN_HOST" with
  | some lan_host =>
      if lan_host ≠ "" then ("http://" ++ lan_host ++ ":1234") :: defaultCandidateHosts
      else defaultCandidateHosts
  | none => defaultCandidateHosts

/-- Lines 80–88: the probe loop. Each iteration issues
`httpx.get(host ++ "/v1/models")` inside `try`; any exception falls through to
the next host, a 200 answer returns `host ++ "/v1"` at once. -/
def probeLoop (probe : String → Except PyExn Nat) : List String → Option String
  | [] => none
  | host :: rest =>
      match probe (host ++ "/v1/models") with
      | .error _ => probeLoop probe rest
      | .ok code => if code = 200 then some (host ++ "/v1") else probeLoop probe rest

/-- Lines 56–88, `_detect_lmstudio_base_url`. -/
def _detect_lmstudio_base_url (env : List (String × String))
    (probe : String → Except PyExn Nat) : Option String :=
  probeLoop probe (detectCandidates env)

/-- Lines 95–107 of `_create_llm_use_conf`: role-key lookup (`ValueError` when
the role is unknown), YAML sub-mapping extraction with `(default dict)`
(`ValueError` when present but not a mapping), environment merge with
environment precedence. -/
def resolveMergedConf (env : List (String × String)) (conf : Yaml)
    (llm_type : String) : Except PyExn (List (String × Val)) :=
  match dictFind _get_llm_type_config_keys llm_type with
  | none => .error (.valueError ("Unknown LLM type: " ++ llm_type))
  | some config_key =>
      match (dictFind conf config_key).getD (.dict []) with
      | .scalar s =>
          .error (.valueError ("Invalid LLM configuration for " ++ llm_type ++ ": " ++ s))
      | .dict llm_conf =>
          .ok (pyMerge llm_conf (_get_env_llm_conf env llm_type))

/-- Lines 109–121 of `_create_llm_use_conf`: when the merged configuration is
empty, fall back to LM Studio detection; synthesize the minimal configuration
on success, raise `ValueError` naming the role otherwise. -/
def resolveConf (env : List (String × String)) (probe : String → Except PyExn Nat)
    (conf : Yaml) (llm_type : String) : Except PyExn (List (String × Val)) :=
  match resolveMergedConf env conf llm_type with
  | .error e => .error e
  | .ok merged_conf =>
      if merged_conf.isEmpty then
        match _detect_lmstudio_base_url env probe with
        | some lmstudio_base =>
            .ok [("api_base", .str lmstudio_base), ("api_key", .str "lm-studio"),
                 ("streaming", .bool true)]
        | none =>
            .error (.valueError
              ("No configuration found for LLM type: " ++ llm_type ++
               " and LM Studio not detected"))
      else .ok merged_conf

/-- Lines 123–125: add `max_retries = 3` when absent. -/
def injectMaxRetries (merged_conf : List (String × Val)) : List (String × Val) :=
  if dictHasKey merged_conf "max_retries" then merged_conf
  else dictInsert merged_conf "max_retries" (.int 3)

/-- Lines 127–135: `verify_ssl = merged_conf.pop("verify_ssl", True)`; when the
popped value is falsy, add `http_client` and `http_async_client` transports
with certificate verification disabled. -/
def applySslSettings (merged_conf : List (String × Val)) : List (String × Val) :=
  let verify_ssl := (dictFind merged_conf "verify_ssl").getD (.bool true)
  let merged_conf := dictErase merged_conf "verify_ssl"
  if verify_ssl.truthy then merged_conf
  else
    dictInsert (dictInsert merged_conf "http_client" (.httpClient false))
      "http_async_client" (.httpAsyncClient false)

/-- Python `os.getenv(k)` used in `or` position: present and non-empty. -/
def envTruthy (env : List (String × String)) (k : String) : Bool :=
  match dictFind env k with
  | some s => s ≠ ""
  | none => false

/-- Line 140: `"base_url" in merged_conf and "dashscope." in merged_conf["base_url"]`.
The source applies the string `in` to the stored value, which presupposes the
value is a string; a non-string `base_url` (impossible for environment-sourced
values, which are always strings) would raise `TypeError` in Python and is
treated as a non-match here, outside every claim's inputs. -/
def baseUrlHasDashscope (merged_conf : List (String × Val)) : Bool :=
  match dictFind merged_conf "base_url" with
  | some (.str s) => containsSubstr s "dashscope."
  | some _ => false
  | none => false

/-- Lines 137–165 of `_create_llm_use_conf`: provider dispatch.
Azure first (`azure_endpoint` key or truthy `AZURE_OPENAI_ENDPOINT`), then the
dashscope branch with the `enable_thinking` extra body, then the reasoning
branch renaming `base_url` to `api_base` via `pop(..., None)`, then the
generic fallback: `merged_conf.get("base_url") or _detect_lmstudio_base_url()`
(Python `or`, so a falsy configured value falls through to detection), and
`if lmstudio_base:` guarding the api_base/api_key/streaming adjustments. -/
def dispatch (env : List (String × String)) (probe : String → Except PyExn Nat)
    (llm_type : String) (merged_conf : List (String × Val)) : ChatModel :=
  if dictHasKey merged_conf "azure_endpoint" || envTruthy env "AZURE_OPENAI_ENDPOINT" then
    .azureChatOpenAI merged_conf
  else if baseUrlHasDashscope merged_conf then
    (if llm_type = "reasoning" then
      .chatDashscope (dictInsert merged_conf "extra_body" (.extraBody true))
    else
      .chatDashscope (dictInsert merged_conf "extra_body" (.extraBody false)))
  else if llm_type = "reasoning" then
    .chatDeepSeek
      (dictInsert (dictErase merged_conf "base_url") "api_base"
        ((dictFind merged_conf "base_url").getD .pyNone))
  else
    let lmstudio_base : Option Val :=
      match dictFind merged_conf "base_url" with
      | some v =>
          if v.truthy then some v else (_detect_lmstudio_base_url env probe).map Val.str
      | none => (_detect_lmstudio_base_url env probe).map Val.str
    match lmstudio_base with
    | some b =>
        if b.truthy then
          .chatOpenAI
            (dictSetdefault
              (dictSetdefault (dictInsert merged_conf "api_base" b) "api_key"
                (.str "lm-studio"))
              "streaming" (.bool true))
        else .chatOpenAI merged_conf
    | none => .chatOpenAI merged_conf

/-- Lines 91–165, `_create_llm_use_conf`, assembled from the pieces above in
source order. -/
def _create_llm_use_conf (env : List (String × String))
    (probe : String → Except PyExn Nat) (llm_type : String) (conf : Yaml) :
    Except PyExn ChatModel :=
  match resolveConf env probe conf llm_type with
  | .error e => .error e
  | .ok merged_conf =>
      .ok (dispatch env probe llm_type (applySslSettings (injectMaxRetries merged_conf)))

/-- Lines 168–178, `get_llm_by_type`: cache check, on miss create and store.
`conf` stands for the result of `load_yaml_config(_get_config_file_path())`,
an external collaborator. The cache, module-global in the source, is passed
and returned explicitly. -/
def get_llm_by_type (env : List (String × String))
    (probe : String → Except PyExn Nat) (conf : Yaml) (llm_type : String)
    (cache : List (String × ChatModel)) :
    Except PyExn (ChatModel × List (String × ChatModel)) :=
  match dictFind cache llm_type with
  | some llm => .ok (llm, cache)
  | none =>
      match _create_llm_use_conf env probe llm_type conf with
      | .error e => .error e
      | .ok llm => .ok (llm, dictInsert cache llm_type llm)

/-- Python `configured_models.setdefault(llm_type, []).append(model_name)`. -/
def listAppendAt (acc : List (String × List Val)) (k : String) (v : Val) :
    List (String × List Val) :=
  if dictHasKey acc k then acc.map (fun p => if p.1 = k then (p.1, p.2 ++ [v]) else p)
  else acc ++ [(k, [v])]

/-- Lines 197–199: `config_key = llm_type_config_keys.get(llm_type, "")` and
`yaml_conf = conf.get(config_key, (default dict)) if config_key else (default dict)`. -/
def reporterYamlVal (conf : Yaml) (llm_type : String) : YamlVal :=
  let config_key := (dictFind _get_llm_type_config_keys llm_type).getD ""
  if config_key ≠ "" then (dictFind conf config_key).getD (.dict []) else .dict []

/-- One iteration of the loop in lines 192–209: key lookup with `""` default,
YAML sub-value with `(default dict)` (a `(**x)` splat of a non-mapping raises
`TypeError`), environment merge, `model` extraction, truthiness check,
accumulation. -/
def reporterStep (env : List (String × String)) (conf : Yaml)
    (acc : List (String × List Val)) (llm_type : String) :
    Except PyExn (List (String × List Val)) :=
  match reporterYamlVal conf llm_type with
  | .scalar s => .error (.typeError ("argument of type mapping is required, got: " ++ s))
  | .dict yaml_conf =>
      let merged_conf := pyMerge yaml_conf (_get_env_llm_conf env llm_type)
      match dictFind merged_conf "model" with
      | some model_name =>
          if model_name.truthy then .ok (listAppendAt acc llm_type model_name)
          else .ok acc
      | none => .ok acc

/-- The `for llm_type in get_args(LLMType)` loop of lines 192–209. -/
def reporterLoop (env : List (String × String)) (conf : Yaml) :
    List String → List (String × List Val) → Except PyExn (List (String × List Val))
  | [], acc => .ok acc
  | t :: ts, acc =>
      match reporterStep env conf acc t with
      | .error e => .error e
      | .ok acc₁ => reporterLoop env conf ts acc₁

/-- Lines 181–215, `get_configured_llm_models`: the whole body runs inside
`try`; `load` stands for the outcome of `load_yaml_config` (which may raise on
an absent or malformed file); `except Exception` prints a warning and returns
the empty dict. -/
def get_configured_llm_models (env : List (String × String))
    (load : Except PyExn Yaml) : List (String × List Val) :=
  match
    (match load with
     | .error e => Except.error e
     | .ok conf => reporterLoop env conf llmTypeArgs []) with
  | .ok configured_models => configured_models
  | .error _ => []

/-- A probe for which every candidate host refuses the connection. -/
def probeFail : String → Except PyExn Nat :=
  fun _ => Except.error (PyExn.httpxError "connection refused")

deriving instance DecidableEq for Except

/-- A probe that answers 200 only at `http://127.0.0.1:1234/v1/models`. -/
def probeOk127 : String → Except PyExn Nat :=
  fun u =>
    if u = "http://127.0.0.1:1234/v1/models" then Except.ok 200
    else Except.error (PyExn.httpxError "connection refused")

/-- Python `s.endswith(p)`. -/
def strEndsWith (s p : String) : Bool := charsPrefix p.data.reverse s.data.reverse

/-- Following the spec's words (refinement reference, not code): a candidate
URL for the loopback interface on the fixed port — hostname `localhost` or an
IPv4 address in `127.0.0.0/8`, port 1234. -/
def isLoopbackCandidate (s : String) : Bool :=
  s = "http://localhost:1234" || (strStartsWith s "http://127." && strEndsWith s ":1234")

/-- Sample YAML with only a basic model configured. -/
def confBasicW : Yaml := [("BASIC_MODEL", YamlVal.dict [("model", Val.str "gpt")])]

/-- The client the factory builds from `confBasicW` for role `basic`. -/
def llmBasicW : ChatModel :=
  ChatModel.chatOpenAI [("model", Val.str "gpt"), ("max_retries", Val.int 3)]

/-- Cache state after one `basic` resolution from `confBasicW`. -/
def cacheBasicW : List (String × ChatModel) := [("basic", llmBasicW)]

/-- A merged configuration whose `base_url` points at dashscope. -/
def mcDashW : List (String × Val) :=
  [("base_url", Val.str "https://dashscope.example/v1")]

/-- A merged configuration with a plain (non-dashscope) `base_url`. -/
def mcPlainW : List (String × Val) :=
  [("base_url", Val.str "https://api.example.com")]

/-- A merged configuration for role `reasoning` with no `base_url` key. -/
def mcNoBaseW : List (String × Val) :=
  [("model", Val.str "r1"), ("max_retries", Val.int 3)]

/-- A merged configuration with SSL verification disabled. -/
def mcSslW : List (String × Val) :=
  [("verify_ssl", Val.bool false), ("api_key", Val.str "k")]

lemma dictFind_hasKey {α : Type} (d : List (String × α)) (k : String) :
    dictHasKey d k = (dictFind d k).isSome := by
  induction d with
  | nil => rfl
  | cons p d ih => by_cases h : p.1 = k <;> simp [dictFind, dictHasKey, h, ih]

lemma dictFind_eq_none_of_keys {α : Type} (d : List (String × α)) (k : String)
    (h : ∀ p ∈ d, p.1 ≠ k) : dictFind d k = none := by
  induction d with
  | nil => rfl
  | cons p d ih =>
    simp [dictFind, h p (List.mem_cons_self _ _)]
    exact ih (fun q hq => h q (List.mem_cons_of_mem _ hq))

lemma find_replaceMap {α : Type} (d : List (String × α)) (k : String) (v : α)
    (h : dictHasKey d k = true) :
    dictFind (d.map (fun p => if p.1 = k then (k, v) else p)) k = some v := by
  induction d with
  | nil => simp [dictHasKey] at h
  | cons p d ih =>
    by_cases hp : p.1 = k
    · simp [dictFind, hp]
    · have h' : dictHasKey d k = true := by simpa [dictHasKey, hp] using h
      simp [dictFind, hp, ih h']

lemma find_appendSelf {α : Type} (d : List (String × α)) (k : String) (v : α)
    (h : dictFind d k = none) : dictFind (d ++ [(k, v)]) k = some v := by
  induction d with
  | nil => simp [dictFind]
  | cons p d ih =>
    by_cases hp : p.1 = k
    · simp [dictFind, hp] at h
    · simp [dictFind, hp] at h ⊢
      exact ih h

lemma dictFind_insert_self {α : Type} (d : List (String × α)) (k : String) (v : α) :
    dictFind (dictInsert d k v) k = some v := by
  unfold dictInsert
  by_cases h : dictHasKey d k = true
  · simp only [h, if_true]
    exact find_replaceMap d k v h
  · have h0 : dictFind d k = none := by
      rw [dictFind_hasKey] at h
      cases hf : dictFind d k with
      | none => rfl
      | some w => rw [hf] at h; simp at h
    simp only [h, if_false]
    exact find_appendSelf d k v h0

lemma find_replaceMap_ne {α : Type} (d : List (String × α)) (k : String) (v : α)
    (k' : String) (h : k' ≠ k) :
    dictFind (d.map (fun p => if p.1 = k then (k, v) else p)) k' = dictFind d k' := by
  induction d with
  | nil => rfl
  | cons p d ih =>
    by_cases hp : p.1 = k
    · simp [dictFind, hp, Ne.symm h, ih]
    · simp [dictFind, hp, ih]

lemma find_append_ne {α : Type} (d : List (String × α)) (k : String) (v : α)
    (k' : String) (h : k' ≠ k) : dictFind (d ++ [(k, v)]) k' = dictFind d k' := by
  induction d with
  | nil => simp [dictFind, Ne.symm h]
  | cons p d ih => by_cases hp : p.1 = k' <;> simp [dictFind, hp, ih]

lemma dictFind_insert_ne {α : Type} (d : List (String × α)) (k : String) (v : α)
    (k' : String) (h : k' ≠ k) : dictFind (dictInsert d k v) k' = dictFind d k' := by
  unfold dictInsert
  by_cases hk : dictHasKey d k = true
  · simp only [hk, if_true]
    exact find_replaceMap_ne d k v k' h
  · simp only [hk, if_false]
    exact find_append_ne d k v k' h

lemma dictFind_erase_self {α : Type} (d : List (String × α)) (k : String) :
    dictFind (dictErase d k) k = none := by
  induction d with
  | nil => rfl
  | cons p d ih => by_cases hp : p.1 = k <;> simp [dictErase, dictFind, hp, ih]

lemma dictFind_erase_ne {α : Type} (d : List (String × α)) (k : String)
    (k' : String) (h : k' ≠ k) :
    dictFind (dictErase d k) k' = dictFind d k' := by
  induction d with
  | nil => rfl
  | cons p d ih =>
    by_cases hp : p.1 = k
    · simp [dictErase, dictFind, hp, Ne.symm h, ih]
    · by_cases hp' : p.1 = k' <;> simp [dictErase, dictFind, hp, hp', h, ih]

lemma pyMerge_cons {α : Type} (a : List (String × α)) (p : String × α)
    (b : List (String × α)) : pyMerge a (p :: b) = pyMerge (dictInsert a p.1 p.2) b := rfl

lemma pyMerge_find_not_mem {α : Type} (a b : List (String × α)) (k : String)
    (h : ∀ p ∈ b, p.1 ≠ k) : dictFind (pyMerge a b) k = dictFind a k := by
  induction b generalizing a with
  | nil => rfl
  | cons p b ih =>
    rw [pyMerge_cons, ih _ (fun q hq => h q (List.mem_cons_of_mem _ hq))]
    exact dictFind_insert_ne a p.1 p.2 k (Ne.symm (h p (List.mem_cons_self _ _)))

lemma dictFind_pyMerge {α : Type} (a b : List (String × α)) (k : String)
    (hb : (b.map Prod.fst).Nodup) :
    dictFind (pyMerge a b) k =
      if (dictFind b k).isSome then dictFind b k else dictFind a k := by
  induction b generalizing a with
  | nil => simp [pyMerge, dictFind]
  | cons p b ih =>
    rw [List.map_cons, List.nodup_cons] at hb
    rw [pyMerge_cons]
    by_cases hk : p.1 = k
    · subst hk
      have hkeys : ∀ q ∈ b, q.1 ≠ p.1 := by
        intro q hq hh
        exact hb.1 (List.mem_map.mpr ⟨q, hq, hh⟩)
      rw [pyMerge_find_not_mem _ _ _ hkeys, dictFind_insert_self]
      simp [dictFind]
    · rw [ih _ hb.2, dictFind_insert_ne a p.1 p.2 k (fun hh => hk hh.symm)]
      simp [dictFind, hk]

lemma probeLoop_none (probe : String → Except PyExn Nat) (hs : List String)
    (h : ∀ x ∈ hs, probe (x ++ "/v1/models") ≠ Except.ok 200) :
    probeLoop probe hs = none := by
  induction hs with
  | nil => rfl
  | cons host rest ih =>
    have hh := h host (List.mem_cons_self _ _)
    have hrest := fun x hx => h x (List.mem_cons_of_mem _ hx)
    cases hp : probe (host ++ "/v1/models") with
    | error e => simp [probeLoop, hp]; exact ih hrest
    | ok code =>
      by_cases hc : code = 200
      · exact absurd (hc ▸ hp) hh
      · simp [probeLoop, hp, hc]; exact ih hrest

lemma probeLoop_first (probe : String → Except PyExn Nat) (pre : List String)
    (host : String) (post : List String)
    (hpre : ∀ x ∈ pre, probe (x ++ "/v1/models") ≠ Except.ok 200)
    (hhit : probe (host ++ "/v1/models") = Except.ok 200) :
    probeLoop probe (pre ++ host :: post) = some (host ++ "/v1") := by
  induction pre with
  | nil => simp [probeLoop, hhit]
  | cons x pre ih =>
    have hx := hpre x (List.mem_cons_self _ _)
    have hrest := fun y hy => hpre y (List.mem_cons_of_mem _ hy)
    cases hp : probe (x ++ "/v1/models") with
    | error e => simp [probeLoop, hp]; exact ih hrest
    | ok code =>
      by_cases hc : code = 200
      · exact absurd (hc ▸ hp) hx
      · simp [probeLoop, hp, hc]; exact ih hrest

lemma find_appendMap_ne (acc : List (String × List Val)) (k : String) (v : Val)
    (t : String) (h : t ≠ k) :
    dictFind (acc.map (fun p => if p.1 = k then (p.1, p.2 ++ [v]) else p)) t =
      dictFind acc t := by
  induction acc with
  | nil => rfl
  | cons p acc ih =>
    by_cases hp : p.1 = k
    · simp [dictFind, hp, Ne.symm h, ih]
    · by_cases hp' : p.1 = t <;> simp [dictFind, hp, hp', h, ih]

lemma dictFind_listAppendAt_ne (acc : List (String × List Val)) (k : String)
    (v : Val) (t : String) (h : t ≠ k) :
    dictFind (listAppendAt acc k v) t = dictFind acc t := by
  unfold listAppendAt
  by_cases hk : dictHasKey acc k = true
  · simp only [hk, if_true]
    exact find_appendMap_ne acc k v t h
  · simp only [hk, if_false]
    exact find_append_ne acc k [v] t h

lemma dictFind_listAppendAt_none (acc : List (String × List Val)) (k : String)
    (v : Val) (h : dictFind acc k = none) :
    dictFind (listAppendAt acc k v) k = some [v] := by
  unfold listAppendAt
  have hk : ¬ dictHasKey acc k = true := by
    rw [dictFind_hasKey, h]; simp
  simp only [hk, if_false]
  exact find_appendSelf acc k [v] h

lemma reporterStep_find_ne (env : List (String × String)) (conf : Yaml)
    (acc acc₁ : List (String × List Val)) (t' t : String)
    (h : reporterStep env conf acc t' = .ok acc₁) (hne : t ≠ t') :
    dictFind acc₁ t = dictFind acc t := by
  unfold reporterStep at h
  cases hy : reporterYamlVal conf t' with
  | scalar s => rw [hy] at h; simp at h
  | dict yconf =>
    rw [hy] at h
    simp only at h
    cases hm : dictFind (pyMerge yconf (_get_env_llm_conf env t')) "model" with
    | none => rw [hm] at h; simp at h; rw [← h]
    | some mn =>
      rw [hm] at h
      by_cases ht : mn.truthy
      · simp [ht] at h
        rw [← h]
        exact dictFind_listAppendAt_ne acc t' mn t hne
      · simp [ht] at h; rw [← h]

lemma reporterStep_adds (env : List (String × String)) (conf : Yaml)
    (acc : List (String × List Val)) (t : String) (d : List (String × Val)) (v : Val)
    (hy : reporterYamlVal conf t = .dict d)
    (hm : dictFind (pyMerge d (_get_env_llm_conf env t)) "model" = some v)
    (ht : v.truthy = true) :
    reporterStep env conf acc t = .ok (listAppendAt acc t v) := by
  unfold reporterStep
  rw [hy]
  simp only
  rw [hm]
  simp [ht]

lemma reporterStep_skips (env : List (String × String)) (conf : Yaml)
    (acc : List (String × List Val)) (t : String) (d : List (String × Val))
    (hy : reporterYamlVal conf t = .dict d)
    (hm : ∀ v, dictFind (pyMerge d (_get_env_llm_conf env t)) "model" = some v →
      v.truthy = false) :
    reporterStep env conf acc t = .ok acc := by
  unfold reporterStep
  rw [hy]
  simp only
  cases hmm : dictFind (pyMerge d (_get_env_llm_conf env t)) "model" with
  | none => rfl
  | some v => simp [hm v hmm]

lemma reporterLoop_find_not_mem (env : List (String × String)) (conf : Yaml) :
    ∀ (ts : List String) (acc r : List (String × List Val)) (t : String),
      reporterLoop env conf ts acc = .ok r → t ∉ ts → dictFind r t = dictFind acc t := by
  intro ts
  induction ts with
  | nil => intro acc r t h _; simp [reporterLoop] at h; rw [h]
  | cons t' ts ih =>
    intro acc r t h hmem
    unfold reporterLoop at h
    cases hs : reporterStep env conf acc t' with
    | error e => rw [hs] at h; simp at h
    | ok acc₁ =>
      rw [hs] at h
      have h1 := ih acc₁ r t h (fun hx => hmem (List.mem_cons_of_mem _ hx))
      rw [h1]
      exact reporterStep_find_ne env conf acc acc₁ t' t hs
        (fun he => hmem (he ▸ List.mem_cons_self _ _))

lemma reporterLoop_find_added (env : List (String × String)) (conf : Yaml) :
    ∀ (ts : List String) (acc r : List (String × List Val)) (t : String)
      (d : List (String × Val)) (v : Val),
      ts.Nodup → t ∈ ts → dictFind acc t = none →
      reporterYamlVal conf t = .dict d →
      dictFind (pyMerge d (_get_env_llm_conf env t)) "model" = some v →
      v.truthy = true →
      reporterLoop env conf ts acc = .ok r → dictFind r t = some [v] := by
  intro ts
  induction ts with
  | nil => intro acc r t d v _ hmem; exact absurd hmem (List.not_mem_nil t)
  | cons t' ts ih =>
    intro acc r t d v hnd hmem hacc hy hm ht h
    by_cases he : t = t'
    · subst he
      unfold reporterLoop at h
      rw [reporterStep_adds env conf acc t d v hy hm ht] at h
      have hnotin : t ∉ ts := (List.nodup_cons.mp hnd).1
      rw [reporterLoop_find_not_mem env conf ts _ r t h hnotin]
      exact dictFind_listAppendAt_none acc t v hacc
    · unfold reporterLoop at h
      cases hs : reporterStep env conf acc t' with
      | error e => rw [hs] at h; simp at h
      | ok acc₁ =>
        rw [hs] at h
        have hacc₁ : dictFind acc₁ t = none := by
          rw [reporterStep_find_ne env conf acc acc₁ t' t hs he]; exact hacc
        exact ih acc₁ r t d v (List.nodup_cons.mp hnd).2
          ((List.mem_cons.mp hmem).resolve_left he) hacc₁ hy hm ht h

lemma reporterLoop_find_skipped (env : List (String × String)) (conf : Yaml) :
    ∀ (ts : List String) (acc r : List (String × List Val)) (t : String)
      (d : List (String × Val)),
      ts.Nodup → t ∈ ts → dictFind acc t = none →
      reporterYamlVal conf t = .dict d →
      (∀ v, dictFind (pyMerge d (_get_env_llm_conf env t)) "model" = some v →
        v.truthy = false) →
      reporterLoop env conf ts acc = .ok r → dictFind r t = none := by
  intro ts
  induction ts with
  | nil => intro acc r t d _ hmem; exact absurd hmem (List.not_mem_nil t)
  | cons t' ts ih =>
    intro acc r t d hnd hmem hacc hy hm h
    by_cases he : t = t'
    · subst he
      unfold reporterLoop at h
      rw [reporterStep_skips env conf acc t d hy hm] at h
      have hnotin : t ∉ ts := (List.nodup_cons.mp hnd).1
      rw [reporterLoop_find_not_mem env conf ts _ r t h hnotin]
      exact hacc
    · unfold reporterLoop at h
      cases hs : reporterStep env conf acc t' with
      | error e => rw [hs] at h; simp at h
      | ok acc₁ =>
        rw [hs] at h
        have hacc₁ : dictFind acc₁ t = none := by
          rw [reporterStep_find_ne env conf acc acc₁ t' t hs he]; exact hacc
        exact ih acc₁ r t d (List.nodup_cons.mp hnd).2
          ((List.mem_cons.mp hmem).resolve_left he) hacc₁ hy hm h

lemma strData_append (a b : String) : (a ++ b).data = a.data ++ b.data := by
  cases a; cases b; rfl

lemma msg_unknown_ne_missing (r₁ r₂ : String) :
    ("Unknown LLM type: " ++ r₁) ≠
      ("No configuration found for LLM type: " ++ r₂ ++ " and LM Studio not detected") := by
  intro h
  have hd := congrArg String.data h
  rw [strData_append, strData_append, strData_append] at hd
  rw [show ("Unknown LLM type: ").data = 'U' :: ("nknown LLM type: ").data from by decide] at hd
  rw [show ("No configuration found for LLM type: ").data
      = 'N' :: ("o configuration found for LLM type: ").data from by decide] at hd
  rw [List.cons_append, List.cons_append, List.cons_append] at hd
  injection hd with h5 h6
  exact absurd h5 (by decide)

lemma msg_invalid_ne_missing (r₁ s r₂ : String) :
    ("Invalid LLM configuration for " ++ r₁ ++ ": " ++ s) ≠
      ("No configuration found for LLM type: " ++ r₂ ++ " and LM Studio not detected") := by
  intro h
  have hd := congrArg String.data h
  rw [strData_append, strData_append, strData_append, strData_append, strData_append] at hd
  rw [show ("Invalid LLM configuration for ").data
      = 'I' :: ("nvalid LLM configuration for ").data from by decide] at hd
  rw [show ("No configuration found for LLM type: ").data
      = 'N' :: ("o configuration found for LLM type: ").data from by decide] at hd
  rw [List.cons_append, List.cons_append, List.cons_append, List.cons_append,
      List.cons_append] at hd
  injection hd with h5 h6
  exact absurd h5 (by decide)

/-- C1: Cache idempotence. If a call to `get_llm_by_type` for some role
returns a client `llm` and leaves the cache in state `cache₁`, then any later
call for the same role on `cache₁` — with ARBITRARY environment, probe and
YAML configuration — returns the very same `llm` and leaves the cache
unchanged. Insensitivity to the factory inputs shows the second call performs
no construction at all (the cached object is returned), so at most one client
is constructed per role per process. -/
theorem cache_idempotence (env env' : List (String × String))
    (probe probe' : String → Except PyExn Nat) (conf conf' : Yaml)
    (llm_type : String) (cache cache₁ : List (String × ChatModel)) (llm : ChatModel)
    (h : get_llm_by_type env probe conf llm_type cache = .ok (llm, cache₁)) :
    get_llm_by_type env' probe' conf' llm_type cache₁ = .ok (llm, cache₁) := by
  unfold get_llm_by_type at h ⊢
  cases hc : dictFind cache llm_type with
  | some l =>
    rw [hc] at h
    simp only [Except.ok.injEq, Prod.mk.injEq] at h
    obtain ⟨h1, h2⟩ := h
    subst h1; subst h2
    rw [hc]
  | none =>
    rw [hc] at h
    cases hcr : _create_llm_use_conf env probe llm_type conf with
    | error e => rw [hcr] at h; simp at h
    | ok l =>
      rw [hcr] at h
      simp only [Except.ok.injEq, Prod.mk.injEq] at h
      obtain ⟨h1, h2⟩ := h
      subst h1; subst h2
      rw [dictFind_insert_self]

/-- Witness for C1 at a concrete input: after a first `basic` resolution from
`confBasicW`, a second call with a different environment, failing probe and
empty YAML still returns the cached client and cache unchanged. -/
theorem cache_idempotence_witness :
    get_llm_by_type [("AZURE_OPENAI_ENDPOINT", "x")] probeFail [] "basic"
      cacheBasicW = .ok (llmBasicW, cacheBasicW) :=
  cache_idempotence [] [("AZURE_OPENAI_ENDPOINT", "x")] probeFail probeFail
    confBasicW [] "basic" [] cacheBasicW llmBasicW rfl

/-- C2: Environment precedence in the merge. `pyMerge` (the `(**yaml, **env)`
expression of line 107) maps every key present in both dicts to the
second (environment) dict's value and keeps keys unique to either side; in
particular, role `basic` with YAML `api_key = "a"` and environment variable
`BASIC_MODEL__api_key=b` resolves to merged `api_key = "b"`. -/
theorem merge_env_precedence (a b : List (String × Val)) (k : String)
    (hb : (b.map Prod.fst).Nodup) :
    (dictFind (pyMerge a b) k =
      if (dictFind b k).isSome then dictFind b k else dictFind a k)
    ∧ resolveMergedConf [("BASIC_MODEL__api_key", "b")]
        [("BASIC_MODEL", YamlVal.dict [("api_key", Val.str "a")])] "basic" =
      .ok [("api_key", Val.str "b")] :=
  ⟨dictFind_pyMerge a b k hb, rfl⟩

/-- Witness for C2 at the spec's own example. -/
theorem merge_env_precedence_witness :
    dictFind (pyMerge [("api_key", Val.str "a")] [("api_key", Val.str "b")]) "api_key" =
      some (Val.str "b") := by
  have h := (merge_env_precedence [("api_key", Val.str "a")]
    [("api_key", Val.str "b")] "api_key" (by decide)).1
  simpa using h

/-- C3: Empty-configuration fallback. Whenever the merged configuration for a
role is empty, resolution consults the LM Studio prober: a detected base URL
yields exactly the synthesized configuration
`api_base = url, api_key = "lm-studio", streaming = true` (before
`max_retries` default injection), and a failed detection yields the
missing-configuration `ValueError` naming the role. -/
theorem empty_conf_fallback (env : List (String × String))
    (probe : String → Except PyExn Nat) (conf : Yaml) (llm_type : String)
    (hmerged : resolveMergedConf env conf llm_type = .ok []) :
    (∀ url, _detect_lmstudio_base_url env probe = some url →
        resolveConf env probe conf llm_type =
          .ok [("api_base", Val.str url), ("api_key", Val.str "lm-studio"),
               ("streaming", Val.bool true)])
    ∧ (_detect_lmstudio_base_url env probe = none →
        resolveConf env probe conf llm_type =
          .error (.valueError ("No configuration found for LLM type: " ++ llm_type ++
            " and LM Studio not detected"))) := by
  constructor
  · intro url hdet
    unfold resolveConf
    rw [hmerged]
    simp [hdet]
  · intro hdet
    unfold resolveConf
    rw [hmerged]
    simp [hdet]

/-- Witness for C3: with empty YAML sub-mapping and empty environment, a
failing probe gives the missing-configuration error, and a probe answering on
127.0.0.1 gives exactly the synthesized configuration. -/
theorem empty_conf_fallback_witness :
    resolveConf [] probeFail [("BASIC_MODEL", YamlVal.dict [])] "basic" =
      .error (.valueError
        "No configuration found for LLM type: basic and LM Studio not detected")
    ∧ resolveConf [] probeOk127 [("BASIC_MODEL", YamlVal.dict [])] "basic" =
      .ok [("api_base", Val.str "http://127.0.0.1:1234/v1"),
           ("api_key", Val.str "lm-studio"), ("streaming", Val.bool true)] := by
  constructor
  · exact (empty_conf_fallback [] probeFail [("BASIC_MODEL", YamlVal.dict [])]
      "basic" rfl).2 rfl
  · exact (empty_conf_fallback [] probeOk127 [("BASIC_MODEL", YamlVal.dict [])]
      "basic" rfl).1 "http://127.0.0.1:1234/v1" rfl

/-- C4 counterexample: the claim describes the fixed candidate list as
"a small fixed list of loopback addresses", but the source's hard-coded list
also contains `http://192.168.2.65:1234`, a private LAN address that is not a
loopback candidate in the sense of the spec's words (`isLoopbackCandidate`).
So the candidate list is not a list of loopback addresses. -/
theorem detect_lmstudio_counterexample :
    ("http://192.168.2.65:1234" ∈ detectCandidates [])
    ∧ isLoopbackCandidate "http://192.168.2.65:1234" = false
    ∧ ¬ (∀ h ∈ detectCandidates [], isLoopbackCandidate h = true) := by
  refine ⟨by decide, by decide, ?_⟩
  intro hall
  exact absurd (hall "http://192.168.2.65:1234" (by decide)) (by decide)

/-- C4 (amended): the prober builds an ordered candidate list — the optional
`LMSTUDIO_LAN_HOST` entry prepended to the fixed three defaults (two loopback
addresses and one hard-coded LAN address), all on port 1234 — probes each
candidate in order via GET `candidate ++ "/v1/models"`, returns
`candidate ++ "/v1"` for the first candidate answering HTTP 200 without
probing further, and returns absence (`none`, never an exception, whatever
each probe raises) when every candidate fails or answers non-200. -/
theorem detect_lmstudio_contract (env : List (String × String))
    (probe : String → Except PyExn Nat) :
    (∀ pre host post, detectCandidates env = pre ++ host :: post →
        (∀ x ∈ pre, probe (x ++ "/v1/models") ≠ Except.ok 200) →
        probe (host ++ "/v1/models") = Except.ok 200 →
        _detect_lmstudio_base_url env probe = some (host ++ "/v1"))
    ∧ ((∀ x ∈ detectCandidates env, probe (x ++ "/v1/models") ≠ Except.ok 200) →
        _detect_lmstudio_base_url env probe = none)
    ∧ (∀ lan, dictFind env "LMSTUDIO_LAN_HOST" = some lan → lan ≠ "" →
        detectCandidates env = ("http://" ++ lan ++ ":1234") :: defaultCandidateHosts)
    ∧ (dictFind env "LMSTUDIO_LAN_HOST" = none →
        detectCandidates env = defaultCandidateHosts) := by
  refine ⟨?_, ?_, ?_, ?_⟩
  · intro pre host post hsplit hpre hhit
    unfold _detect_lmstudio_base_url
    rw [hsplit]
    exact probeLoop_first probe pre host post hpre hhit
  · intro hall
    exact probeLoop_none probe (detectCandidates env) hall
  · intro lan hl hne
    unfold detectCandidates
    rw [hl]
    simp [hne]
  · intro hl
    unfold detectCandidates
    rw [hl]

/-- Witness for the amended C4: first success wins (localhost refuses,
127.0.0.1 answers 200, 192.168.2.65 is never probed), and an all-failing
probe yields absence. -/
theorem detect_lmstudio_contract_witness :
    _detect_lmstudio_base_url [] probeOk127 = some "http://127.0.0.1:1234/v1"
    ∧ _detect_lmstudio_base_url [] probeFail = none := by
  constructor
  · exact (detect_lmstudio_contract [] probeOk127).1 ["http://localhost:1234"]
      "http://127.0.0.1:1234" ["http://192.168.2.65:1234"] rfl (by decide) rfl
  · exact (detect_lmstudio_contract [] probeFail).2.1 (by decide)

/-- C5: Dashscope dispatch and thinking flag. For every role and every
non-Azure merged configuration whose `base_url` string contains
`"dashscope."`, dispatch constructs `ChatDashscope` and the options carry
`extra_body = (enable_thinking: b)` with `b` true exactly when the role is
`"reasoning"`. -/
theorem dashscope_thinking_flag (env : List (String × String))
    (probe : String → Except PyExn Nat) (llm_type : String)
    (mc : List (String × Val)) (u : String)
    (hAz : dictHasKey mc "azure_endpoint" = false)
    (hAzEnv : envTruthy env "AZURE_OPENAI_ENDPOINT" = false)
    (hbu : dictFind mc "base_url" = some (Val.str u))
    (hdash : containsSubstr u "dashscope." = true) :
    dispatch env probe llm_type mc =
      .chatDashscope (dictInsert mc "extra_body"
        (.extraBody (if llm_type = "reasoning" then true else false)))
    ∧ dictFind (dictInsert mc "extra_body"
        (.extraBody (if llm_type = "reasoning" then true else false))) "extra_body" =
      some (.extraBody (if llm_type = "reasoning" then true else false)) := by
  have hd : baseUrlHasDashscope mc = true := by
    unfold baseUrlHasDashscope
    rw [hbu]
    exact hdash
  constructor
  · unfold dispatch
    rw [hAz, hAzEnv, hd]
    by_cases hr : llm_type = "reasoning" <;> simp [hr]
  · exact dictFind_insert_self mc "extra_body" _

/-- Witness for C5 at the spec's example URL, for roles `reasoning` and
`basic`. -/
theorem dashscope_thinking_flag_witness :
    dispatch [] probeFail "reasoning" mcDashW =
      .chatDashscope (dictInsert mcDashW "extra_body" (.extraBody true))
    ∧ dispatch [] probeFail "basic" mcDashW =
      .chatDashscope (dictInsert mcDashW "extra_body" (.extraBody false)) := by
  constructor
  · exact (dashscope_thinking_flag [] probeFail "reasoning" mcDashW
      "https://dashscope.example/v1" rfl rfl rfl rfl).1
  · exact (dashscope_thinking_flag [] probeFail "basic" mcDashW
      "https://dashscope.example/v1" rfl rfl rfl rfl).1

/-- C6: Reasoning-branch key rename. For role `reasoning`, non-Azure, with a
`base_url` string not containing `"dashscope."`, dispatch builds
`ChatDeepSeek` whose options map `api_base` to the original `base_url` value
and contain no `base_url` key. -/
theorem reasoning_base_url_rename (env : List (String × String))
    (probe : String → Except PyExn Nat) (mc : List (String × Val)) (u : String)
    (hAz : dictHasKey mc "azure_endpoint" = false)
    (hAzEnv : envTruthy env "AZURE_OPENAI_ENDPOINT" = false)
    (hbu : dictFind mc "base_url" = some (Val.str u))
    (hnd : containsSubstr u "dashscope." = false) :
    dispatch env probe "reasoning" mc =
      .chatDeepSeek (dictInsert (dictErase mc "base_url") "api_base" (Val.str u))
    ∧ dictFind (dictInsert (dictErase mc "base_url") "api_base" (Val.str u))
        "api_base" = some (Val.str u)
    ∧ dictFind (dictInsert (dictErase mc "base_url") "api_base" (Val.str u))
        "base_url" = none := by
  have hd : baseUrlHasDashscope mc = false := by
    unfold baseUrlHasDashscope
    rw [hbu]
    exact hnd
  refine ⟨?_, dictFind_insert_self _ _ _, ?_⟩
  · unfold dispatch
    rw [hAz, hAzEnv, hd]
    simp [hbu]
  · rw [dictFind_insert_ne _ _ _ _ (by decide)]
    exact dictFind_erase_self mc "base_url"

/-- Witness for C6 at the spec's example URL. -/
theorem reasoning_base_url_rename_witness :
    dispatch [] probeFail "reasoning" mcPlainW =
      .chatDeepSeek (dictInsert (dictErase mcPlainW "base_url") "api_base"
        (Val.str "https://api.example.com"))
    ∧ dictFind (dictInsert (dictErase mcPlainW "base_url") "api_base"
        (Val.str "https://api.example.com")) "base_url" = none := by
  constructor
  · exact (reasoning_base_url_rename [] probeFail mcPlainW
      "https://api.example.com" rfl rfl rfl rfl).1
  · exact (reasoning_base_url_rename [] probeFail mcPlainW
      "https://api.example.com" rfl rfl rfl rfl).2.2

/-- C10: For role `reasoning`, non-Azure, with NO `base_url` key at all (hence
also not dashscope), the `pop("base_url", None)` still sets `api_base`
unconditionally: the `ChatDeepSeek` options contain `api_base = None` rather
than omitting the key. -/
theorem reasoning_api_base_none (env : List (String × String))
    (probe : String → Except PyExn Nat) (mc : List (String × Val))
    (hAz : dictHasKey mc "azure_endpoint" = false)
    (hAzEnv : envTruthy env "AZURE_OPENAI_ENDPOINT" = false)
    (hbu : dictFind mc "base_url" = none) :
    dispatch env probe "reasoning" mc =
      .chatDeepSeek (dictInsert (dictErase mc "base_url") "api_base" Val.pyNone)
    ∧ dictFind (dictInsert (dictErase mc "base_url") "api_base" Val.pyNone)
        "api_base" = some Val.pyNone := by
  have hd : baseUrlHasDashscope mc = false := by
    unfold baseUrlHasDashscope
    rw [hbu]
  refine ⟨?_, dictFind_insert_self _ _ _⟩
  unfold dispatch
  rw [hAz, hAzEnv, hd]
  simp [hbu]

/-- Witness for C10 on a configuration with no `base_url` key. -/
theorem reasoning_api_base_none_witness :
    dispatch [] probeFail "reasoning" mcNoBaseW =
      .chatDeepSeek (dictInsert (dictErase mcNoBaseW "base_url") "api_base"
        Val.pyNone) :=
  (reasoning_api_base_none [] probeFail mcNoBaseW rfl rfl rfl).1

/-- C9: verify_ssl handling. For every merged configuration: the `verify_ssl`
key never reaches the constructed client; value `False` adds the two
verification-disabled transports; value `True` or absence leaves the
configuration exactly at "popped" (no transports added); every other key is
unchanged by this step. -/
theorem verify_ssl_extraction (mc : List (String × Val)) :
    (dictFind (applySslSettings mc) "verify_ssl" = none)
    ∧ (dictFind mc "verify_ssl" = some (Val.bool false) →
        dictFind (applySslSettings mc) "http_client" = some (Val.httpClient false)
        ∧ dictFind (applySslSettings mc) "http_async_client" =
            some (Val.httpAsyncClient false))
    ∧ ((dictFind mc "verify_ssl" = some (Val.bool true)
        ∨ dictFind mc "verify_ssl" = none) →
        applySslSettings mc = dictErase mc "verify_ssl")
    ∧ (∀ k, k ≠ "verify_ssl" → k ≠ "http_client" → k ≠ "http_async_client" →
        dictFind (applySslSettings mc) k = dictFind mc k) := by
  refine ⟨?_, ?_, ?_, ?_⟩
  · unfold applySslSettings
    by_cases ht : ((dictFind mc "verify_ssl").getD (Val.bool true)).truthy = true
    · rw [if_pos ht]
      exact dictFind_erase_self mc "verify_ssl"
    · rw [if_neg ht]
      rw [dictFind_insert_ne _ _ _ _ (by decide), dictFind_insert_ne _ _ _ _ (by decide)]
      exact dictFind_erase_self mc "verify_ssl"
  · intro hv
    unfold applySslSettings
    rw [hv]
    simp only [Option.getD_some, Val.truthy, if_false, Bool.false_eq_true]
    constructor
    · rw [dictFind_insert_ne _ _ _ _ (by decide)]
      exact dictFind_insert_self _ _ _
    · exact dictFind_insert_self _ _ _
  · intro hv
    cases hv with
    | inl h => unfold applySslSettings; rw [h]; simp [Val.truthy]
    | inr h => unfold applySslSettings; rw [h]; simp [Val.truthy]
  · intro k h1 h2 h3
    unfold applySslSettings
    by_cases ht : ((dictFind mc "verify_ssl").getD (Val.bool true)).truthy = true
    · rw [if_pos ht]
      exact dictFind_erase_ne mc "verify_ssl" k h1
    · rw [if_neg ht]
      rw [dictFind_insert_ne _ _ _ _ h3, dictFind_insert_ne _ _ _ _ h2]
      exact dictFind_erase_ne mc "verify_ssl" k h1

/-- Witness for C9 on `mcSslW` (verify_ssl false, one other key): transports
are injected, `verify_ssl` is gone, `api_key` survives unchanged. -/
theorem verify_ssl_extraction_witness :
    dictFind (applySslSettings mcSslW) "verify_ssl" = none
    ∧ dictFind (applySslSettings mcSslW) "http_client" = some (Val.httpClient false)
    ∧ dictFind (applySslSettings mcSslW) "http_async_client" =
        some (Val.httpAsyncClient false)
    ∧ dictFind (applySslSettings mcSslW) "api_key" = dictFind mcSslW "api_key" := by
  refine ⟨(verify_ssl_extraction mcSslW).1, ?_, ?_, ?_⟩
  · exact ((verify_ssl_extraction mcSslW).2.1 rfl).1
  · exact ((verify_ssl_extraction mcSslW).2.1 rfl).2
  · exact (verify_ssl_extraction mcSslW).2.2.2 "api_key" (by decide) (by decide) (by decide)

/-- C7: Reporter totality. `get_configured_llm_models` is a total function:
when loading the YAML raises (absent or malformed file) it returns the empty
mapping, when any loop iteration raises (e.g. a non-mapping sub-section makes
the `(**yaml_conf, ...)` splat raise `TypeError`) it returns the empty
mapping, and on success it returns the loop's result, which maps each role
with a truthy `model` in its YAML-plus-environment merge to that model name
and omits roles without one. The reporter takes no probe and injects no
defaults: its result is determined by `pyMerge` of the YAML sub-mapping with
`_get_env_llm_conf` alone. -/
theorem reporter_never_raises (env : List (String × String)) (conf : Yaml) :
    (∀ e, get_configured_llm_models env (.error e) = [])
    ∧ (∀ e, reporterLoop env conf llmTypeArgs [] = .error e →
        get_configured_llm_models env (.ok conf) = [])
    ∧ (∀ r, reporterLoop env conf llmTypeArgs [] = .ok r →
        get_configured_llm_models env (.ok conf) = r
        ∧ (∀ t d v, t ∈ llmTypeArgs → reporterYamlVal conf t = .dict d →
            dictFind (pyMerge d (_get_env_llm_conf env t)) "model" = some v →
            v.truthy = true → dictFind r t = some [v])
        ∧ (∀ t d, t ∈ llmTypeArgs → reporterYamlVal conf t = .dict d →
            (∀ v, dictFind (pyMerge d (_get_env_llm_conf env t)) "model" = some v →
              v.truthy = false) →
            dictFind r t = none)) := by
  refine ⟨fun e => rfl, ?_, ?_⟩
  · intro e h
    simp [get_configured_llm_models, h]
  · intro r h
    refine ⟨?_, ?_, ?_⟩
    · simp [get_configured_llm_models, h]
    · intro t d v hmem hy hm ht
      exact reporterLoop_find_added env conf llmTypeArgs [] r t d v
        (by decide) hmem rfl hy hm ht h
    · intro t d hmem hy hm
      exact reporterLoop_find_skipped env conf llmTypeArgs [] r t d
        (by decide) hmem rfl hy hm h

/-- Witness for C7: a malformed load yields the empty mapping; a YAML with a
basic model yields exactly the `basic`-to-model-name mapping, and the lookup
lemma applies at role `basic`. -/
theorem reporter_never_raises_witness :
    get_configured_llm_models [] (.error (.valueError "File not found")) = []
    ∧ get_configured_llm_models []
        (.ok [("BASIC_MODEL", YamlVal.dict [("model", Val.str "gpt-4o")])]) =
      [("basic", [Val.str "gpt-4o"])]
    ∧ dictFind [("basic", [Val.str "gpt-4o"])] "basic" = some [Val.str "gpt-4o"] := by
  refine ⟨(reporter_never_raises [] []).1 (.valueError "File not found"), ?_, ?_⟩
  · exact ((reporter_never_raises []
      [("BASIC_MODEL", YamlVal.dict [("model", Val.str "gpt-4o")])]).2.2
      [("basic", [Val.str "gpt-4o"])] rfl).1
  · exact (((reporter_never_raises []
      [("BASIC_MODEL", YamlVal.dict [("model", Val.str "gpt-4o")])]).2.2
      [("basic", [Val.str "gpt-4o"])] rfl).2.1 "basic"
      [("model", Val.str "gpt-4o")] (Val.str "gpt-4o") (by decide) rfl rfl rfl)

/-- C8 counterexample: the claim says the unknown-role and wrong-shape
failures carry DISTINCT ERROR TYPES, distinguishable from the
missing-configuration error by type. In the source all three sites raise the
single host exception type `ValueError` (`PyExn.kind` is `"ValueError"` for
each); they differ only in message. Shown at concrete inputs: an unknown
role, a missing configuration and a non-mapping sub-section all produce
`ValueError`s. -/
theorem error_taxonomy_counterexample :
    _create_llm_use_conf [] probeFail "embedding" [] =
      .error (.valueError "Unknown LLM type: embedding")
    ∧ _create_llm_use_conf [] probeFail "basic" [] =
      .error (.valueError
        "No configuration found for LLM type: basic and LM Studio not detected")
    ∧ _create_llm_use_conf [] probeFail "basic"
        [("BASIC_MODEL", YamlVal.scalar "not-a-mapping")] =
      .error (.valueError "Invalid LLM configuration for basic: not-a-mapping")
    ∧ PyExn.kind (.valueError "Unknown LLM type: embedding") =
        PyExn.kind (.valueError
          "No configuration found for LLM type: basic and LM Studio not detected")
    ∧ PyExn.kind (.valueError "Invalid LLM configuration for basic: not-a-mapping") =
        "ValueError" := by
  exact ⟨rfl, rfl, rfl, rfl, rfl⟩

/-- C8 (amended): resolution fails with a `ValueError` whose message is
`"Unknown LLM type: <role>"` when the role is outside the fixed four-role
set, and with a `ValueError` whose message is
`"Invalid LLM configuration for <role>: <value>"` when the role's YAML
sub-section is present but not a mapping; both failures are fatal to the
calling resolution and distinguishable BY MESSAGE (not by exception type)
from the missing-configuration `ValueError`. -/
theorem error_taxonomy_amended (env : List (String × String))
    (probe : String → Except PyExn Nat) (conf : Yaml) (llm_type : String) :
    (llm_type ∉ llmTypeArgs →
        _create_llm_use_conf env probe llm_type conf =
          .error (.valueError ("Unknown LLM type: " ++ llm_type)))
    ∧ (∀ config_key s, dictFind _get_llm_type_config_keys llm_type = some config_key →
        dictFind conf config_key = some (.scalar s) →
        _create_llm_use_conf env probe llm_type conf =
          .error (.valueError ("Invalid LLM configuration for " ++ llm_type ++ ": " ++ s)))
    ∧ (∀ r₁ r₂, ("Unknown LLM type: " ++ r₁) ≠
        ("No configuration found for LLM type: " ++ r₂ ++ " and LM Studio not detected"))
    ∧ (∀ r₁ s r₂, ("Invalid LLM configuration for " ++ r₁ ++ ": " ++ s) ≠
        ("No configuration found for LLM type: " ++ r₂ ++ " and LM Studio not detected")) := by
  refine ⟨?_, ?_, msg_unknown_ne_missing, msg_invalid_ne_missing⟩
  · intro hmem
    simp only [llmTypeArgs, List.mem_cons, List.mem_singleton, not_or] at hmem
    obtain ⟨h1, h2, h3, h4, -⟩ := hmem
    have hk : dictFind _get_llm_type_config_keys llm_type = none := by
      simp [_get_llm_type_config_keys, dictFind, Ne.symm h1, Ne.symm h2,
        Ne.symm h3, Ne.symm h4]
    simp [_create_llm_use_conf, resolveConf, resolveMergedConf, hk]
  · intro config_key s hkey hy
    simp [_create_llm_use_conf, resolveConf, resolveMergedConf, hkey, hy]

/-- Witness for the amended C8: the unknown-role message at role
`"embedding"` and the wrong-shape message at role `vision`. -/
theorem error_taxonomy_amended_witness :
    _create_llm_use_conf [] probeFail "embedding" [] =
      .error (.valueError "Unknown LLM type: embedding")
    ∧ _create_llm_use_conf [] probeFail "vision"
        [("VISION_MODEL", YamlVal.scalar "oops")] =
      .error (.valueError "Invalid LLM configuration for vision: oops") := by
  constructor
  · exact (error_taxonomy_amended [] probeFail [] "embedding").1 (by decide)
  · exact (error_taxonomy_amended [] probeFail
      [("VISION_MODEL", YamlVal.scalar "oops")] "vision").2.1 "VISION_MODEL" "oops"
      rfl rfl
